import Mathlib

/-!
Shallow embedding of the AI-agent marketplace purchase/credit core:
purchaseAgent (src/server/src/handlers/purchase_agent.ts),
buyCredits (src/server/src/handlers/buy_credits.ts, the implemented
variant) and withdrawCredits (src/unnamed/part_006), over the tables of
src/server/src/db/schema.ts.  Monetary values (the numeric(10,2) columns,
read with parseFloat and written with toString in the handlers) are
modelled as exact integer cents; the database is a record of row lists.
-/

namespace Marketplace

/-- Monetary amount in cents (a numeric(10,2) column of schema.ts). -/
abbrev Cents := Int

/-- A row of usersTable, restricted to the fields the credit core reads or
writes (id, credit_balance, total_earned). -/
structure User where
  id : Nat
  credit_balance : Cents
  total_earned : Cents
  deriving Repr, DecidableEq

/-- A row of aiAgentsTable, restricted to the fields purchaseAgent uses. -/
structure AIAgent where
  id : Nat
  creator_id : Nat
  name : String
  price : Cents
  is_active : Bool
  total_sales : Nat
  deriving Repr, DecidableEq

/-- The transaction_type enum of schema.ts. -/
inductive TransactionType where
  | purchase
  | sale_earning
  | withdrawal
  | refund
  deriving Repr, DecidableEq

/-- A row of purchasesTable (purchase_date omitted: no claim reads it). -/
structure Purchase where
  id : Nat
  buyer_id : Nat
  agent_id : Nat
  creator_id : Nat
  price_paid : Cents
  deriving Repr, DecidableEq

/-- A row of creditTransactionsTable (created_at omitted). -/
structure CreditTransaction where
  id : Nat
  user_id : Nat
  transaction_type : TransactionType
  amount : Cents
  description : String
  reference_id : Option Nat
  deriving Repr, DecidableEq

/-- The relational store: one list per table, plus the serial id counters
for the two tables the core inserts into. -/
structure DB where
  users : List User
  agents : List AIAgent
  purchases : List Purchase
  transactions : List CreditTransaction
  nextPurchaseId : Nat
  nextTransactionId : Nat
  deriving Repr, DecidableEq

/-- Input of purchaseAgent (purchaseAgentInputSchema). -/
structure PurchaseAgentInput where
  buyer_id : Nat
  agent_id : Nat
  deriving Repr, DecidableEq

/-- Input of buyCredits (buyCreditsInputSchema; zod requires amount > 0). -/
structure BuyCreditsInput where
  user_id : Nat
  amount : Cents
  payment_method : String
  deriving Repr, DecidableEq

/-- Input of withdrawCredits (withdrawCreditsInputSchema; amount > 0). -/
structure WithdrawCreditsInput where
  user_id : Nat
  amount : Cents
  deriving Repr, DecidableEq

/-- SELECT from users WHERE id = uid (first matching row). -/
def selectUser (s : DB) (uid : Nat) : Option User :=
  s.users.find? (fun u => u.id == uid)

/-- SELECT from ai_agents WHERE id = aid AND is_active = true. -/
def selectActiveAgent (s : DB) (aid : Nat) : Option AIAgent :=
  s.agents.find? (fun a => a.id == aid && a.is_active)

/-- SELECT from ai_agents WHERE id = aid (no activity filter). -/
def selectAgent (s : DB) (aid : Nat) : Option AIAgent :=
  s.agents.find? (fun a => a.id == aid)

/-- SELECT from purchases WHERE buyer_id = b AND agent_id = a. -/
def selectPurchase (s : DB) (b a : Nat) : Option Purchase :=
  s.purchases.find? (fun p => p.buyer_id == b && p.agent_id == a)

/-- UPDATE users SET credit_balance = bal WHERE id = uid. -/
def setUserBalance (users : List User) (uid : Nat) (bal : Cents) : List User :=
  users.map (fun u => if u.id == uid then { u with credit_balance := bal } else u)

/-- UPDATE users SET credit_balance = bal, total_earned = earned WHERE id = uid. -/
def setUserBalanceEarned (users : List User) (uid : Nat) (bal earned : Cents) : List User :=
  users.map (fun u =>
    if u.id == uid then { u with credit_balance := bal, total_earned := earned } else u)

/-- UPDATE ai_agents SET total_sales = n WHERE id = aid. -/
def setAgentSales (agents : List AIAgent) (aid : Nat) (n : Nat) : List AIAgent :=
  agents.map (fun a => if a.id == aid then { a with total_sales := n } else a)

/-- INSERT INTO purchases ... RETURNING: appends the row and returns it. -/
def insertPurchase (s : DB) (b a c : Nat) (price : Cents) : Purchase × DB :=
  let p : Purchase :=
    { id := s.nextPurchaseId, buyer_id := b, agent_id := a, creator_id := c,
      price_paid := price }
  (p, { s with purchases := s.purchases ++ [p],
                nextPurchaseId := s.nextPurchaseId + 1 })

/-- INSERT INTO credit_transactions ... RETURNING. -/
def insertTransaction (s : DB) (uid : Nat) (ty : TransactionType) (amt : Cents)
    (desc : String) (ref : Option Nat) : CreditTransaction × DB :=
  let t : CreditTransaction :=
    { id := s.nextTransactionId, user_id := uid, transaction_type := ty,
      amount := amt, description := desc, reference_id := ref }
  (t, { s with transactions := s.transactions ++ [t],
               nextTransactionId := s.nextTransactionId + 1 })

/-- Decimal rendering of a cent amount the way a JavaScript number holding
at most two decimals prints inside a template literal: 2000 renders as
"20", 2050 as "20.5", 2999 as "29.99". -/
def formatAmount (c : Cents) : String :=
  let sign := if c < 0 then "-" else ""
  let n := c.natAbs
  let dollars := n / 100
  let cents := n % 100
  if cents == 0 then sign ++ toString dollars
  else if cents % 10 == 0 then sign ++ toString dollars ++ "." ++ toString (cents / 10)
  else if cents < 10 then sign ++ toString dollars ++ ".0" ++ toString cents
  else sign ++ toString dollars ++ "." ++ toString cents

/-- Steps 7 to 12 of purchase_agent.ts: the six writes performed once all
six precondition checks have passed, in source order (debit buyer, credit
creator and bump total_earned, bump total_sales, insert the Purchase,
insert the buyer debit transaction, insert the creator earning
transaction).  All values written are the ones computed from the rows read
before any write, exactly as in the source. -/
def applyPurchaseWrites (s : DB) (input : PurchaseAgentInput) (agent : AIAgent)
    (buyer creator : User) : Purchase × DB :=
  let users1 := setUserBalance s.users input.buyer_id (buyer.credit_balance - agent.price)
  let s1 : DB := { s with users := users1 }
  let users2 := setUserBalanceEarned s1.users agent.creator_id
    (creator.credit_balance + agent.price) (creator.total_earned + agent.price)
  let s2 : DB := { s1 with users := users2 }
  let agents3 := setAgentSales s2.agents input.agent_id (agent.total_sales + 1)
  let s3 : DB := { s2 with agents := agents3 }
  let r4 := insertPurchase s3 input.buyer_id input.agent_id agent.creator_id agent.price
  let r5 := insertTransaction r4.2 input.buyer_id TransactionType.purchase
    (-agent.price) ("Purchase of AI Agent: " ++ agent.name) (some r4.1.id)
  let r6 := insertTransaction r5.2 agent.creator_id TransactionType.sale_earning
    agent.price ("Sale of AI Agent: " ++ agent.name) (some r4.1.id)
  (r4.1, r6.2)

/-- purchaseAgent of purchase_agent.ts: the six precondition checks in
source order, each returning null (and, being reads only, leaving the
store unchanged), then the six writes of applyPurchaseWrites inside one
db.transaction. -/
def purchaseAgent (s : DB) (input : PurchaseAgentInput) : Option Purchase × DB :=
  match selectActiveAgent s input.agent_id with
  | none => (none, s)
  | some agent =>
    match selectUser s input.buyer_id with
    | none => (none, s)
    | some buyer =>
      if agent.creator_id == input.buyer_id then (none, s)
      else if (selectPurchase s input.buyer_id input.agent_id).isSome then (none, s)
      else if buyer.credit_balance < agent.price then (none, s)
      else
        match selectUser s agent.creator_id with
        | none => (none, s)
        | some creator =>
          let r := applyPurchaseWrites s input agent buyer creator
          (some r.1, r.2)

/-- The conjunction of the six purchase preconditions of
purchase_agent.ts steps 1 to 6, in source order. -/
def purchasePreconds (s : DB) (input : PurchaseAgentInput) : Bool :=
  match selectActiveAgent s input.agent_id with
  | none => false
  | some agent =>
    match selectUser s input.buyer_id with
    | none => false
    | some buyer =>
      !(agent.creator_id == input.buyer_id) &&
      !(selectPurchase s input.buyer_id input.agent_id).isSome &&
      !(decide (buyer.credit_balance < agent.price)) &&
      (selectUser s agent.creator_id).isSome

/-- The blank-method test of buy_credits.ts (payment method falsy or
trimming to the empty string): every character is whitespace. -/
def isBlank (s : String) : Bool :=
  s.toList.all (fun c => c.isWhitespace)

/-- processPayment of buy_credits.ts: the mock payment authorization,
false when the amount is not positive or the method is blank. -/
def processPayment (amount : Cents) (payment_method : String) : Bool :=
  if amount ≤ 0 then false
  else if isBlank payment_method then false
  else true

/-- buyCredits of buy_credits.ts with a storage-fault parameter.  The two
writes run inside db.transaction, so a fault at either write (failAt some
k) rolls every buffered write back and the outer catch rethrows: the
result is an error with the store unchanged.  A missing user is thrown as
an Error (propagated by the catch), a failed payment authorization is the
null result with no write attempted. -/
def buyCreditsF (s : DB) (input : BuyCreditsInput) (failAt : Option (Fin 2)) :
    Except Unit (Option CreditTransaction) × DB :=
  match selectUser s input.user_id with
  | none => (Except.error (), s)
  | some _ =>
    if !(processPayment input.amount input.payment_method) then (Except.ok none, s)
    else
      match selectUser s input.user_id with
      | none => (Except.error (), s)
      | some currentUser =>
        match failAt with
        | some _ => (Except.error (), s)
        | none =>
          let newBalance := currentUser.credit_balance + input.amount
          let users1 := setUserBalance s.users input.user_id newBalance
          let s1 : DB := { s with users := users1 }
          let r := insertTransaction s1 input.user_id TransactionType.purchase
            input.amount ("Credit purchase via " ++ input.payment_method) none
          (Except.ok (some r.1), r.2)

/-- buyCredits of buy_credits.ts in a fault-free run. -/
def buyCredits (s : DB) (input : BuyCreditsInput) :
    Except Unit (Option CreditTransaction) × DB :=
  buyCreditsF s input none

/-- withdrawCredits of src/unnamed/part_006 in a fault-free run: existence
and balance checks returning null, then the balance update and the
withdrawal-transaction insert. -/
def withdrawCredits (s : DB) (input : WithdrawCreditsInput) :
    Option CreditTransaction × DB :=
  match selectUser s input.user_id with
  | none => (none, s)
  | some user =>
    if user.credit_balance < input.amount then (none, s)
    else
      let newBalance := user.credit_balance - input.amount
      let users1 := setUserBalance s.users input.user_id newBalance
      let s1 : DB := { s with users := users1 }
      let r := insertTransaction s1 input.user_id TransactionType.withdrawal
        input.amount ("Credit withdrawal of $" ++ formatAmount input.amount) none
      (some r.1, r.2)

/-- withdrawCredits of src/unnamed/part_006 with storage-fault parameters.
Unlike purchase_agent.ts and buy_credits.ts, part_006 issues its update
and its insert as two separate db calls with no db.transaction around
them, and its catch block returns null instead of rethrowing: when the
update throws nothing has been written, but when the insert throws the
already-executed balance update persists, and in both cases the caller
receives the null result, never an error. -/
def withdrawCreditsF (s : DB) (input : WithdrawCreditsInput)
    (updateFails insertFails : Bool) :
    Except Unit (Option CreditTransaction) × DB :=
  match selectUser s input.user_id with
  | none => (Except.ok none, s)
  | some user =>
    if user.credit_balance < input.amount then (Except.ok none, s)
    else
      let newBalance := user.credit_balance - input.amount
      if updateFails then (Except.ok none, s)
      else
        let users1 := setUserBalance s.users input.user_id newBalance
        let s1 : DB := { s with users := users1 }
        if insertFails then (Except.ok none, s1)
        else
          let r := insertTransaction s1 input.user_id TransactionType.withdrawal
            input.amount ("Credit withdrawal of $" ++ formatAmount input.amount) none
          (Except.ok (some r.1), r.2)

/-- purchaseAgent of purchase_agent.ts with a storage-fault parameter: all
six writes run inside db.transaction, so a fault at any of them (failAt
some k) discards every buffered write and the outer catch rethrows the
error with the store as it was on entry. -/
def purchaseAgentF (s : DB) (input : PurchaseAgentInput) (failAt : Option (Fin 6)) :
    Except Unit (Option Purchase) × DB :=
  match selectActiveAgent s input.agent_id with
  | none => (Except.ok none, s)
  | some agent =>
    match selectUser s input.buyer_id with
    | none => (Except.ok none, s)
    | some buyer =>
      if agent.creator_id == input.buyer_id then (Except.ok none, s)
      else if (selectPurchase s input.buyer_id input.agent_id).isSome then (Except.ok none, s)
      else if buyer.credit_balance < agent.price then (Except.ok none, s)
      else
        match selectUser s agent.creator_id with
        | none => (Except.ok none, s)
        | some creator =>
          match failAt with
          | some _ => (Except.error (), s)
          | none =>
            let r := applyPurchaseWrites s input agent buyer creator
            (Except.ok (some r.1), r.2)

/-- Every stored credit_balance is non-negative (spec section 3 invariant). -/
def nonNegBalances (s : DB) : Prop :=
  ∀ u ∈ s.users, 0 ≤ u.credit_balance

/-- Demo creator row used in concrete witnesses. -/
def demoCreator : User := { id := 1, credit_balance := 1000, total_earned := 500 }

/-- Demo buyer row used in concrete witnesses. -/
def demoBuyer : User := { id := 2, credit_balance := 5000, total_earned := 0 }

/-- Demo agent row priced at 29.99 dollars. -/
def demoAgent : AIAgent :=
  { id := 1, creator_id := 1, name := "Helper Bot", price := 2999,
    is_active := true, total_sales := 0 }

/-- Demo store holding the two demo users and the demo agent. -/
def demoDB : DB :=
  { users := [demoCreator, demoBuyer], agents := [demoAgent], purchases := [],
    transactions := [], nextPurchaseId := 1, nextTransactionId := 1 }

/-- find? with a predicate invariant under g commutes with mapping g. -/
theorem find?_map_invariant {α : Type} (g : α → α) (p : α → Bool)
    (hg : ∀ a, p (g a) = p a) (l : List α) :
    (l.map g).find? p = (l.find? p).map g := by
  rw [List.find?_map]
  have hpg : (p ∘ g) = p := funext (fun a => hg a)
  rw [hpg]

/-- Looking a user up after setUserBalance applies the row update to the
row found before it. -/
theorem find?_setUserBalance (l : List User) (uid x : Nat) (bal : Cents) :
    (setUserBalance l uid bal).find? (fun u => u.id == x)
      = (l.find? (fun u => u.id == x)).map
          (fun u => if u.id == uid then { u with credit_balance := bal } else u) := by
  unfold setUserBalance
  exact find?_map_invariant _ _
    (fun u => by by_cases h : u.id = uid <;> simp [h]) l

/-- Looking a user up after setUserBalanceEarned applies the row update to
the row found before it. -/
theorem find?_setUserBalanceEarned (l : List User) (uid x : Nat) (bal earned : Cents) :
    (setUserBalanceEarned l uid bal earned).find? (fun u => u.id == x)
      = (l.find? (fun u => u.id == x)).map
          (fun u => if u.id == uid
            then { u with credit_balance := bal, total_earned := earned } else u) := by
  unfold setUserBalanceEarned
  exact find?_map_invariant _ _
    (fun u => by by_cases h : u.id = uid <;> simp [h]) l

/-- Looking an active agent up after setAgentSales applies the row update
to the row found before it. -/
theorem find?_setAgentSales_active (l : List AIAgent) (aid x : Nat) (n : Nat) :
    (setAgentSales l aid n).find? (fun a => a.id == x && a.is_active)
      = (l.find? (fun a => a.id == x && a.is_active)).map
          (fun a => if a.id == aid then { a with total_sales := n } else a) := by
  unfold setAgentSales
  exact find?_map_invariant _ _
    (fun a => by by_cases h : a.id = aid <;> simp [h]) l

/-- Appending a row satisfying the predicate makes find? succeed. -/
theorem find?_append_singleton_isSome {α : Type} (p : α → Bool) (l : List α)
    (x : α) (hx : p x = true) : ((l ++ [x]).find? p).isSome = true := by
  rw [List.find?_append]
  cases h : l.find? p <;> simp [List.find?, hx]

/-- Normal form of the six purchase writes. -/
theorem applyPurchaseWrites_eq (s : DB) (input : PurchaseAgentInput)
    (agent : AIAgent) (buyer creator : User) :
    applyPurchaseWrites s input agent buyer creator =
      (⟨s.nextPurchaseId, input.buyer_id, input.agent_id, agent.creator_id, agent.price⟩,
       { users := setUserBalanceEarned
           (setUserBalance s.users input.buyer_id (buyer.credit_balance - agent.price))
           agent.creator_id (creator.credit_balance + agent.price)
           (creator.total_earned + agent.price),
         agents := setAgentSales s.agents input.agent_id (agent.total_sales + 1),
         purchases := s.purchases ++
           [⟨s.nextPurchaseId, input.buyer_id, input.agent_id, agent.creator_id, agent.price⟩],
         transactions := s.transactions ++
           [⟨s.nextTransactionId, input.buyer_id, TransactionType.purchase, -agent.price,
             "Purchase of AI Agent: " ++ agent.name, some s.nextPurchaseId⟩,
            ⟨s.nextTransactionId + 1, agent.creator_id, TransactionType.sale_earning,
             agent.price, "Sale of AI Agent: " ++ agent.name, some s.nextPurchaseId⟩],
         nextPurchaseId := s.nextPurchaseId + 1,
         nextTransactionId := s.nextTransactionId + 2 }) := by
  simp [applyPurchaseWrites, insertPurchase, insertTransaction]

/-- When all six precondition checks pass, purchaseAgent performs the six
writes and returns the created Purchase. -/
theorem purchaseAgent_eq_of_checks (s : DB) (input : PurchaseAgentInput)
    (agent : AIAgent) (buyer creator : User)
    (hA : selectActiveAgent s input.agent_id = some agent)
    (hB : selectUser s input.buyer_id = some buyer)
    (hself : agent.creator_id ≠ input.buyer_id)
    (hdup : selectPurchase s input.buyer_id input.agent_id = none)
    (hbal : agent.price ≤ buyer.credit_balance)
    (hC : selectUser s agent.creator_id = some creator) :
    purchaseAgent s input =
      (some (applyPurchaseWrites s input agent buyer creator).1,
       (applyPurchaseWrites s input agent buyer creator).2) := by
  simp only [purchaseAgent, hA, hB, hC]
  rw [if_neg (by simp [hself]), if_neg (by simp [hdup]),
    if_neg (not_lt.mpr hbal)]

/-- Either purchaseAgent returns null with the store untouched, or it
returns a Purchase. -/
theorem purchaseAgent_cases (s : DB) (input : PurchaseAgentInput) :
    purchaseAgent s input = (none, s) ∨
      ∃ p t, purchaseAgent s input = (some p, t) := by
  unfold purchaseAgent
  split
  · exact Or.inl rfl
  · split
    · exact Or.inl rfl
    · split
      · exact Or.inl rfl
      · split
        · exact Or.inl rfl
        · split
          · exact Or.inl rfl
          · split
            · exact Or.inl rfl
            · exact Or.inr ⟨_, _, rfl⟩

/-- A successful purchaseAgent run is exactly a run in which the six
precondition checks passed and the six writes were applied. -/
theorem purchaseAgent_success (s : DB) (input : PurchaseAgentInput)
    (p : Purchase) (t : DB) (h : purchaseAgent s input = (some p, t)) :
    ∃ agent buyer creator,
      selectActiveAgent s input.agent_id = some agent ∧
      selectUser s input.buyer_id = some buyer ∧
      agent.creator_id ≠ input.buyer_id ∧
      selectPurchase s input.buyer_id input.agent_id = none ∧
      agent.price ≤ buyer.credit_balance ∧
      selectUser s agent.creator_id = some creator ∧
      p = (applyPurchaseWrites s input agent buyer creator).1 ∧
      t = (applyPurchaseWrites s input agent buyer creator).2 := by
  unfold purchaseAgent at h
  split at h
  · simp at h
  · rename_i agent hA
    split at h
    · simp at h
    · rename_i buyer hB
      split at h
      · simp at h
      · split at h
        · simp at h
        · split at h
          · simp at h
          · split at h
            · simp at h
            · rename_i hself hdup hbal oc creator hC
              simp only [Prod.mk.injEq, Option.some.injEq] at h
              refine ⟨agent, buyer, creator, hA, hB, ?_, ?_, ?_, hC, h.1.symm, h.2.symm⟩
              · simpa using hself
              · simpa using hdup
              · exact le_of_not_lt hbal

/-- Store produced by the demo purchase: purchaseAgent demoDB (buyer 2,
agent 1). -/
def demoDBAfter : DB :=
  { users := [{ id := 1, credit_balance := 3999, total_earned := 3499 },
              { id := 2, credit_balance := 2001, total_earned := 0 }],
    agents := [{ id := 1, creator_id := 1, name := "Helper Bot", price := 2999,
                 is_active := true, total_sales := 1 }],
    purchases := [{ id := 1, buyer_id := 2, agent_id := 1, creator_id := 1,
                    price_paid := 2999 }],
    transactions :=
      [{ id := 1, user_id := 2, transaction_type := TransactionType.purchase,
         amount := -2999, description := "Purchase of AI Agent: Helper Bot",
         reference_id := some 1 },
       { id := 2, user_id := 1, transaction_type := TransactionType.sale_earning,
         amount := 2999, description := "Sale of AI Agent: Helper Bot",
         reference_id := some 1 }],
    nextPurchaseId := 2, nextTransactionId := 3 }

/-- Purchase row produced by the demo purchase. -/
def demoPurchase : Purchase :=
  { id := 1, buyer_id := 2, agent_id := 1, creator_id := 1, price_paid := 2999 }

/-- The buyer row after the six purchase writes. -/
theorem applyPurchaseWrites_buyer (s : DB) (input : PurchaseAgentInput)
    (agent : AIAgent) (buyer creator : User)
    (hB : selectUser s input.buyer_id = some buyer)
    (hself : agent.creator_id ≠ input.buyer_id) :
    selectUser (applyPurchaseWrites s input agent buyer creator).2 input.buyer_id
      = some { buyer with credit_balance := buyer.credit_balance - agent.price } := by
  have hbid : buyer.id = input.buyer_id := by simpa using List.find?_some hB
  have hne : input.buyer_id ≠ agent.creator_id := fun e => hself e.symm
  rw [applyPurchaseWrites_eq]
  dsimp only
  simp only [selectUser, find?_setUserBalanceEarned, find?_setUserBalance]
  rw [show s.users.find? (fun u => u.id == input.buyer_id) = some buyer from hB]
  simp [hbid, hne]

/-- The creator row after the six purchase writes. -/
theorem applyPurchaseWrites_creator (s : DB) (input : PurchaseAgentInput)
    (agent : AIAgent) (buyer creator : User)
    (hC : selectUser s agent.creator_id = some creator)
    (hself : agent.creator_id ≠ input.buyer_id) :
    selectUser (applyPurchaseWrites s input agent buyer creator).2 agent.creator_id
      = some { creator with credit_balance := creator.credit_balance + agent.price,
                            total_earned := creator.total_earned + agent.price } := by
  have hcid : creator.id = agent.creator_id := by simpa using List.find?_some hC
  rw [applyPurchaseWrites_eq]
  dsimp only
  simp only [selectUser, find?_setUserBalanceEarned, find?_setUserBalance]
  rw [show s.users.find? (fun u => u.id == agent.creator_id) = some creator from hC]
  simp [hcid, hself]

/-- The agent row after the six purchase writes. -/
theorem applyPurchaseWrites_agent (s : DB) (input : PurchaseAgentInput)
    (agent : AIAgent) (buyer creator : User)
    (hA : selectActiveAgent s input.agent_id = some agent) :
    selectActiveAgent (applyPurchaseWrites s input agent buyer creator).2 input.agent_id
      = some { agent with total_sales := agent.total_sales + 1 } := by
  have hpair : agent.id = input.agent_id ∧ agent.is_active = true := by
    simpa using List.find?_some hA
  rw [applyPurchaseWrites_eq]
  dsimp only
  simp only [selectActiveAgent, find?_setAgentSales_active]
  rw [show s.agents.find? (fun a => a.id == input.agent_id && a.is_active)
        = some agent from hA]
  simp [hpair.1]

/-- C1: a successful purchaseAgent call debits the buyer by the agent's
price, credits the creator's balance and total_earned by that price,
increments the agent's total_sales by one, creates exactly one Purchase
whose price_paid is the agent's price at purchase time, and creates
exactly two CreditTransactions of amounts -price (buyer, type purchase)
and +price (creator, type sale_earning), each with reference_id the new
purchase's id and a description containing the agent's name. -/
theorem purchase_success_postconditions (s : DB) (input : PurchaseAgentInput)
    (p : Purchase) (t : DB) (agent : AIAgent) (buyer creator : User)
    (h : purchaseAgent s input = (some p, t))
    (hA : selectActiveAgent s input.agent_id = some agent)
    (hB : selectUser s input.buyer_id = some buyer)
    (hC : selectUser s agent.creator_id = some creator) :
    selectUser t input.buyer_id =
      some { buyer with credit_balance := buyer.credit_balance - agent.price } ∧
    selectUser t agent.creator_id =
      some { creator with credit_balance := creator.credit_balance + agent.price,
                          total_earned := creator.total_earned + agent.price } ∧
    selectActiveAgent t input.agent_id =
      some { agent with total_sales := agent.total_sales + 1 } ∧
    t.purchases = s.purchases ++ [p] ∧
    p.price_paid = agent.price ∧
    p.buyer_id = input.buyer_id ∧
    p.agent_id = input.agent_id ∧
    p.creator_id = agent.creator_id ∧
    (∃ t1 t2, t.transactions = s.transactions ++ [t1, t2] ∧
      t1.user_id = input.buyer_id ∧
      t1.transaction_type = TransactionType.purchase ∧
      t1.amount = -agent.price ∧
      t1.reference_id = some p.id ∧
      (∃ d1, t1.description = d1 ++ agent.name) ∧
      t2.user_id = agent.creator_id ∧
      t2.transaction_type = TransactionType.sale_earning ∧
      t2.amount = agent.price ∧
      t2.reference_id = some p.id ∧
      (∃ d2, t2.description = d2 ++ agent.name)) := by
  obtain ⟨a2, b2, c2, hA2, hB2, hself, hdup, hbal, hC2, hp, ht⟩ :=
    purchaseAgent_success s input p t h
  rw [hA] at hA2
  injection hA2 with hA2
  subst hA2
  rw [hB] at hB2
  injection hB2 with hB2
  subst hB2
  rw [hC] at hC2
  injection hC2 with hC2
  subst hC2
  subst hp
  subst ht
  refine ⟨applyPurchaseWrites_buyer s input agent buyer creator hB hself,
    applyPurchaseWrites_creator s input agent buyer creator hC hself,
    applyPurchaseWrites_agent s input agent buyer creator hA,
    ?_, ?_, ?_, ?_, ?_, ?_⟩
  · rw [applyPurchaseWrites_eq]
  · rw [applyPurchaseWrites_eq]
  · rw [applyPurchaseWrites_eq]
  · rw [applyPurchaseWrites_eq]
  · rw [applyPurchaseWrites_eq]
  · rw [applyPurchaseWrites_eq]
    exact ⟨{ id := s.nextTransactionId, user_id := input.buyer_id,
             transaction_type := TransactionType.purchase, amount := -agent.price,
             description := "Purchase of AI Agent: " ++ agent.name,
             reference_id := some s.nextPurchaseId },
           { id := s.nextTransactionId + 1, user_id := agent.creator_id,
             transaction_type := TransactionType.sale_earning, amount := agent.price,
             description := "Sale of AI Agent: " ++ agent.name,
             reference_id := some s.nextPurchaseId },
           rfl, rfl, rfl, rfl, rfl, ⟨"Purchase of AI Agent: ", rfl⟩,
           rfl, rfl, rfl, rfl, ⟨"Sale of AI Agent: ", rfl⟩⟩

/-- C1 witness: the demo purchase discharges every hypothesis of the C1
theorem and the buyer's row is debited by the price. -/
theorem purchase_success_postconditions_witness :
    selectUser demoDBAfter 2 =
      some { demoBuyer with credit_balance := demoBuyer.credit_balance - demoAgent.price } :=
  (purchase_success_postconditions demoDB { buyer_id := 2, agent_id := 1 }
    demoPurchase demoDBAfter demoAgent demoBuyer demoCreator
    (by decide) (by decide) (by decide) (by decide)).1

/-- C4: when any of the six purchase preconditions fails (inactive or
missing agent, missing buyer, self-purchase regardless of balance,
duplicate purchase, insufficient balance, missing creator), purchaseAgent
returns null and the store, hence every balance, total_earned,
total_sales, Purchase row and CreditTransaction row, is exactly
unchanged. -/
theorem purchase_precondition_failure (s : DB) (input : PurchaseAgentInput)
    (h : purchasePreconds s input = false) :
    purchaseAgent s input = (none, s) := by
  rcases purchaseAgent_cases s input with hc | ⟨p, t, hc⟩
  · exact hc
  · exfalso
    obtain ⟨agent, buyer, creator, hA, hB, hself, hdup, hbal, hC, _, _⟩ :=
      purchaseAgent_success s input p t hc
    have hnl := not_lt.mpr hbal
    simp [purchasePreconds, hA, hB, hC, hdup, hself, hnl] at h

/-- C4 witness: the self-purchase attempt (buyer 1 buying their own agent 1,
with ample balance) fails a precondition and changes nothing. -/
theorem purchase_precondition_failure_witness :
    purchaseAgent demoDB { buyer_id := 1, agent_id := 1 } = (none, demoDB) :=
  purchase_precondition_failure demoDB { buyer_id := 1, agent_id := 1 } (by decide)

/-- C8: after a successful purchaseAgent call, repeating the identical
call yields null and leaves the store exactly as the first call left it:
one Purchase and the balances of the first call only. -/
theorem purchase_duplicate_second_null (s : DB) (input : PurchaseAgentInput)
    (p : Purchase) (t : DB) (h : purchaseAgent s input = (some p, t)) :
    purchaseAgent t input = (none, t) := by
  obtain ⟨agent, buyer, creator, hA, hB, hself, hdup, hbal, hC, hp, ht⟩ :=
    purchaseAgent_success s input p t h
  have hA2 := applyPurchaseWrites_agent s input agent buyer creator hA
  have hB2 := applyPurchaseWrites_buyer s input agent buyer creator hB hself
  have hdup2 : (selectPurchase (applyPurchaseWrites s input agent buyer creator).2
      input.buyer_id input.agent_id).isSome = true := by
    rw [applyPurchaseWrites_eq]
    dsimp only
    simp only [selectPurchase]
    exact find?_append_singleton_isSome _ _ _ (by simp)
  subst ht
  simp only [purchaseAgent, hA2, hB2]
  rw [if_neg (by simp [hself]), if_pos hdup2]

/-- C8 witness: repeating the demo purchase on the store it produced
returns null and leaves that store unchanged. -/
theorem purchase_duplicate_second_null_witness :
    purchaseAgent demoDBAfter { buyer_id := 2, agent_id := 1 } = (none, demoDBAfter) :=
  purchase_duplicate_second_null demoDB { buyer_id := 2, agent_id := 1 }
    demoPurchase demoDBAfter (by decide)

/-- Store whose buyer 3 holds exactly the demo agent's price. -/
def demoExactDB : DB :=
  { users := [demoCreator, { id := 3, credit_balance := 2999, total_earned := 0 }],
    agents := [demoAgent], purchases := [], transactions := [],
    nextPurchaseId := 1, nextTransactionId := 1 }

/-- C9: when all six preconditions hold and the buyer's balance equals the
agent's price exactly, the purchase succeeds and the buyer's new balance
is exactly zero. -/
theorem purchase_exact_balance (s : DB) (input : PurchaseAgentInput)
    (agent : AIAgent) (buyer creator : User)
    (hA : selectActiveAgent s input.agent_id = some agent)
    (hB : selectUser s input.buyer_id = some buyer)
    (hself : agent.creator_id ≠ input.buyer_id)
    (hdup : selectPurchase s input.buyer_id input.agent_id = none)
    (heq : buyer.credit_balance = agent.price)
    (hC : selectUser s agent.creator_id = some creator) :
    ∃ p t, purchaseAgent s input = (some p, t) ∧
      selectUser t input.buyer_id = some { buyer with credit_balance := 0 } := by
  have hbal : agent.price ≤ buyer.credit_balance := le_of_eq heq.symm
  have hrun := purchaseAgent_eq_of_checks s input agent buyer creator
    hA hB hself hdup hbal hC
  refine ⟨(applyPurchaseWrites s input agent buyer creator).1,
          (applyPurchaseWrites s input agent buyer creator).2, hrun, ?_⟩
  have hb := applyPurchaseWrites_buyer s input agent buyer creator hB hself
  rw [hb, heq, sub_self]

/-- C9 witness: buyer 3 with balance 29.99 buys the 29.99 agent and ends
at balance exactly zero. -/
theorem purchase_exact_balance_witness :
    ∃ p t, purchaseAgent demoExactDB { buyer_id := 3, agent_id := 1 } = (some p, t) ∧
      selectUser t 3 = some { id := 3, credit_balance := 0, total_earned := 0 } := by
  obtain ⟨p, t, h1, h2⟩ := purchase_exact_balance demoExactDB
    { buyer_id := 3, agent_id := 1 } demoAgent
    { id := 3, credit_balance := 2999, total_earned := 0 } demoCreator
    (by decide) (by decide) (by decide) (by decide) (by decide) (by decide)
  exact ⟨p, t, h1, h2⟩

/-- When the user exists with sufficient balance, withdrawCredits debits
the balance and appends the withdrawal transaction. -/
theorem withdrawCredits_eq_of_checks (s : DB) (input : WithdrawCreditsInput)
    (user : User) (hu : selectUser s input.user_id = some user)
    (hge : input.amount ≤ user.credit_balance) :
    withdrawCredits s input =
      (some { id := s.nextTransactionId, user_id := input.user_id,
              transaction_type := TransactionType.withdrawal, amount := input.amount,
              description := "Credit withdrawal of $" ++ formatAmount input.amount,
              reference_id := none },
       { s with
         users := setUserBalance s.users input.user_id
           (user.credit_balance - input.amount),
         transactions := s.transactions ++
           [{ id := s.nextTransactionId, user_id := input.user_id,
              transaction_type := TransactionType.withdrawal, amount := input.amount,
              description := "Credit withdrawal of $" ++ formatAmount input.amount,
              reference_id := none }],
         nextTransactionId := s.nextTransactionId + 1 }) := by
  simp only [withdrawCredits, hu]
  rw [if_neg (not_lt.mpr hge)]
  simp [insertTransaction]

/-- C5: withdrawCredits with a positive amount returns null with no state
change when the user is missing or the balance is strictly below the
amount; otherwise it debits the balance by exactly the amount and appends
one withdrawal CreditTransaction whose amount is the positive magnitude,
whose description carries the formatted dollar amount, and which has no
reference_id; total_earned is untouched. -/
theorem withdraw_spec (s : DB) (input : WithdrawCreditsInput)
    (hpos : 0 < input.amount) :
    (selectUser s input.user_id = none → withdrawCredits s input = (none, s)) ∧
    (∀ user, selectUser s input.user_id = some user →
      user.credit_balance < input.amount → withdrawCredits s input = (none, s)) ∧
    (∀ user, selectUser s input.user_id = some user →
      input.amount ≤ user.credit_balance →
      ∃ t u, withdrawCredits s input = (some t, u) ∧
        selectUser u input.user_id =
          some { user with credit_balance := user.credit_balance - input.amount } ∧
        u.transactions = s.transactions ++ [t] ∧
        t.transaction_type = TransactionType.withdrawal ∧
        t.amount = input.amount ∧
        0 < t.amount ∧
        t.description = "Credit withdrawal of $" ++ formatAmount input.amount ∧
        t.reference_id = none ∧
        u.purchases = s.purchases ∧
        u.agents = s.agents) := by
  refine ⟨?_, ?_, ?_⟩
  · intro h
    simp [withdrawCredits, h]
  · intro user hu hlt
    simp [withdrawCredits, hu, hlt]
  · intro user hu hge
    have huid : user.id = input.user_id := by simpa using List.find?_some hu
    refine ⟨_, _, withdrawCredits_eq_of_checks s input user hu hge,
      ?_, rfl, rfl, rfl, hpos, rfl, rfl, rfl, rfl⟩
    simp only [selectUser, find?_setUserBalance]
    rw [show s.users.find? (fun x => x.id == input.user_id) = some user from hu]
    simp [huid]

/-- C5 witness: user 2 withdraws 25.00 from balance 50.00. -/
theorem withdraw_spec_witness :
    ∃ t u, withdrawCredits demoDB { user_id := 2, amount := 2500 } = (some t, u) ∧
      selectUser u 2 =
        some { demoBuyer with credit_balance := demoBuyer.credit_balance - 2500 } ∧
      u.transactions = demoDB.transactions ++ [t] ∧
      t.transaction_type = TransactionType.withdrawal ∧
      t.amount = 2500 ∧
      (0 : Cents) < t.amount ∧
      t.description = "Credit withdrawal of $" ++ formatAmount 2500 ∧
      t.reference_id = none ∧
      u.purchases = demoDB.purchases ∧
      u.agents = demoDB.agents :=
  (withdraw_spec demoDB { user_id := 2, amount := 2500 } (by decide)).2.2
    demoBuyer (by decide) (by decide)

/-- When the user exists and payment authorization succeeds, buyCredits
credits the balance and appends the purchase transaction. -/
theorem buyCredits_eq_of_checks (s : DB) (input : BuyCreditsInput)
    (user : User) (hu : selectUser s input.user_id = some user)
    (hpay : processPayment input.amount input.payment_method = true) :
    buyCredits s input =
      (Except.ok (some
        { id := s.nextTransactionId, user_id := input.user_id,
          transaction_type := TransactionType.purchase, amount := input.amount,
          description := "Credit purchase via " ++ input.payment_method,
          reference_id := none }),
       { s with
         users := setUserBalance s.users input.user_id
           (user.credit_balance + input.amount),
         transactions := s.transactions ++
           [{ id := s.nextTransactionId, user_id := input.user_id,
              transaction_type := TransactionType.purchase, amount := input.amount,
              description := "Credit purchase via " ++ input.payment_method,
              reference_id := none }],
         nextTransactionId := s.nextTransactionId + 1 }) := by
  simp only [buyCredits, buyCreditsF, hu, hpay]
  simp [insertTransaction]

/-- C6: buyCredits with a positive amount throws (an error, not null) when
the user does not exist; returns null with no state change when payment
authorization fails; and on success credits the balance by exactly the
amount and appends one CreditTransaction of type purchase with amount
+amount whose description mentions the payment method. -/
theorem buy_credits_spec (s : DB) (input : BuyCreditsInput)
    (hpos : 0 < input.amount) :
    (selectUser s input.user_id = none →
      buyCredits s input = (Except.error (), s)) ∧
    (∀ user, selectUser s input.user_id = some user →
      processPayment input.amount input.payment_method = false →
      buyCredits s input = (Except.ok none, s)) ∧
    (∀ user, selectUser s input.user_id = some user →
      processPayment input.amount input.payment_method = true →
      ∃ t u, buyCredits s input = (Except.ok (some t), u) ∧
        selectUser u input.user_id =
          some { user with credit_balance := user.credit_balance + input.amount } ∧
        u.transactions = s.transactions ++ [t] ∧
        t.transaction_type = TransactionType.purchase ∧
        t.amount = input.amount ∧
        (∃ d, t.description = d ++ input.payment_method)) := by
  refine ⟨?_, ?_, ?_⟩
  · intro h
    simp [buyCredits, buyCreditsF, h]
  · intro user hu hpay
    simp [buyCredits, buyCreditsF, hu, hpay]
  · intro user hu hpay
    have huid : user.id = input.user_id := by simpa using List.find?_some hu
    refine ⟨_, _, buyCredits_eq_of_checks s input user hu hpay,
      ?_, rfl, rfl, rfl, ⟨"Credit purchase via ", rfl⟩⟩
    simp only [selectUser, find?_setUserBalance]
    rw [show s.users.find? (fun x => x.id == input.user_id) = some user from hu]
    simp [huid]

/-- C6 witness: user 2 buys 10.00 of credits via paypal. -/
theorem buy_credits_spec_witness :
    ∃ t u, buyCredits demoDB
        { user_id := 2, amount := 1000, payment_method := "paypal" }
        = (Except.ok (some t), u) ∧
      selectUser u 2 =
        some { demoBuyer with credit_balance := demoBuyer.credit_balance + 1000 } ∧
      u.transactions = demoDB.transactions ++ [t] ∧
      t.transaction_type = TransactionType.purchase ∧
      t.amount = 1000 ∧
      (∃ d, t.description = d ++ "paypal") :=
  (buy_credits_spec demoDB { user_id := 2, amount := 1000, payment_method := "paypal" }
    (by decide)).2.2 demoBuyer (by decide) (by decide)

/-- C10: a successful purchaseAgent call touches only the buyer row, the
creator row and the purchased agent's row; it appends exactly one Purchase
and exactly two CreditTransactions; every other user row (balance and
total_earned), every other agent row (total_sales and price) and every
pre-existing Purchase and CreditTransaction row is exactly unchanged, and
no row is deleted. -/
theorem purchase_frame (s : DB) (input : PurchaseAgentInput)
    (p : Purchase) (t : DB) (agent : AIAgent)
    (h : purchaseAgent s input = (some p, t))
    (hA : selectActiveAgent s input.agent_id = some agent) :
    t.users.length = s.users.length ∧
    (∀ (k : Nat) (u : User), s.users[k]? = some u → u.id ≠ input.buyer_id →
      u.id ≠ agent.creator_id → t.users[k]? = some u) ∧
    t.agents.length = s.agents.length ∧
    (∀ (k : Nat) (a : AIAgent), s.agents[k]? = some a → a.id ≠ input.agent_id →
      t.agents[k]? = some a) ∧
    t.purchases = s.purchases ++ [p] ∧
    (∃ t1 t2, t.transactions = s.transactions ++ [t1, t2]) := by
  obtain ⟨a2, buyer, creator, hA2, hB, hself, hdup, hbal, hC, hp, ht⟩ :=
    purchaseAgent_success s input p t h
  rw [hA] at hA2
  injection hA2 with hA2
  subst hA2
  subst hp
  subst ht
  rw [applyPurchaseWrites_eq]
  dsimp only
  refine ⟨?_, ?_, ?_, ?_, rfl, ⟨_, _, rfl⟩⟩
  · simp [setUserBalanceEarned, setUserBalance]
  · intro k u hk hu1 hu2
    simp only [setUserBalanceEarned, setUserBalance, List.getElem?_map, hk,
      Option.map_some]
    simp [hu1, hu2]
  · simp [setAgentSales]
  · intro k a hk ha1
    simp only [setAgentSales, List.getElem?_map, hk, Option.map_some]
    simp [ha1]

/-- C10 witness: in the demo purchase no row other than buyer 2, creator 1
and agent 1 exists, and the tables grow by exactly one Purchase and two
transactions. -/
theorem purchase_frame_witness :
    demoDBAfter.users.length = demoDB.users.length ∧
    (∀ (k : Nat) (u : User), demoDB.users[k]? = some u → u.id ≠ 2 →
      u.id ≠ demoAgent.creator_id → demoDBAfter.users[k]? = some u) ∧
    demoDBAfter.agents.length = demoDB.agents.length ∧
    (∀ (k : Nat) (a : AIAgent), demoDB.agents[k]? = some a → a.id ≠ 1 →
      demoDBAfter.agents[k]? = some a) ∧
    demoDBAfter.purchases = demoDB.purchases ++ [demoPurchase] ∧
    (∃ t1 t2, demoDBAfter.transactions = demoDB.transactions ++ [t1, t2]) :=
  purchase_frame demoDB { buyer_id := 2, agent_id := 1 } demoPurchase demoDBAfter
    demoAgent (by decide) (by decide)

/-- setUserBalance keeps all balances non-negative when the written value
is non-negative. -/
theorem nonNeg_setUserBalance (l : List User) (uid : Nat) (v : Cents)
    (hl : ∀ u ∈ l, 0 ≤ u.credit_balance) (hv : 0 ≤ v) :
    ∀ u ∈ setUserBalance l uid v, 0 ≤ u.credit_balance := by
  intro u hu
  simp only [setUserBalance, List.mem_map] at hu
  obtain ⟨u0, hu0, rfl⟩ := hu
  by_cases h : u0.id = uid
  · simp [h, hv]
  · simp [h]
    exact hl u0 hu0

/-- setUserBalanceEarned keeps all balances non-negative when the written
balance is non-negative. -/
theorem nonNeg_setUserBalanceEarned (l : List User) (uid : Nat) (v w : Cents)
    (hl : ∀ u ∈ l, 0 ≤ u.credit_balance) (hv : 0 ≤ v) :
    ∀ u ∈ setUserBalanceEarned l uid v w, 0 ≤ u.credit_balance := by
  intro u hu
  simp only [setUserBalanceEarned, List.mem_map] at hu
  obtain ⟨u0, hu0, rfl⟩ := hu
  by_cases h : u0.id = uid
  · simp [h, hv]
  · simp [h]
    exact hl u0 hu0

/-- C7: from any store with non-negative balances and positive agent
prices, each core operation (purchaseAgent, and buyCredits and
withdrawCredits with positive amounts) leaves every user's credit_balance
non-negative. -/
theorem balances_stay_nonneg (s : DB)
    (hU : nonNegBalances s)
    (hP : ∀ a ∈ s.agents, 0 < a.price) :
    (∀ input : PurchaseAgentInput, nonNegBalances (purchaseAgent s input).2) ∧
    (∀ input : BuyCreditsInput, 0 < input.amount →
      nonNegBalances (buyCredits s input).2) ∧
    (∀ input : WithdrawCreditsInput, 0 < input.amount →
      nonNegBalances (withdrawCredits s input).2) := by
  refine ⟨?_, ?_, ?_⟩
  · intro input
    rcases purchaseAgent_cases s input with hc | ⟨p, t, hc⟩
    · rw [hc]
      exact hU
    · obtain ⟨agent, buyer, creator, hA, hB, hself, hdup, hbal, hC, hp, ht⟩ :=
        purchaseAgent_success s input p t hc
      rw [hc]
      subst ht
      rw [applyPurchaseWrites_eq]
      dsimp only
      intro u hu
      have hagent : agent ∈ s.agents := List.mem_of_find?_eq_some hA
      have hcreator : creator ∈ s.users := List.mem_of_find?_eq_some hC
      refine nonNeg_setUserBalanceEarned _ _ _ _ ?_ ?_ u hu
      · exact nonNeg_setUserBalance _ _ _ hU (sub_nonneg.mpr hbal)
      · exact add_nonneg (hU creator hcreator) (le_of_lt (hP agent hagent))
  · intro input hpos
    cases hu : selectUser s input.user_id with
    | none =>
      have heq : buyCredits s input = (Except.error (), s) := by
        simp [buyCredits, buyCreditsF, hu]
      rw [heq]
      exact hU
    | some user =>
      by_cases hpay : processPayment input.amount input.payment_method = true
      · rw [buyCredits_eq_of_checks s input user hu hpay]
        intro u hmem
        exact nonNeg_setUserBalance _ _ _ hU
          (add_nonneg (hU user (List.mem_of_find?_eq_some hu)) hpos.le) u hmem
      · have hpay2 : processPayment input.amount input.payment_method = false := by
          revert hpay
          cases processPayment input.amount input.payment_method <;> simp
        have heq : buyCredits s input = (Except.ok none, s) := by
          simp [buyCredits, buyCreditsF, hu, hpay2]
        rw [heq]
        exact hU
  · intro input hpos
    cases hu : selectUser s input.user_id with
    | none =>
      have heq : withdrawCredits s input = (none, s) := by
        simp [withdrawCredits, hu]
      rw [heq]
      exact hU
    | some user =>
      by_cases hlt : user.credit_balance < input.amount
      · have heq : withdrawCredits s input = (none, s) := by
          simp [withdrawCredits, hu, hlt]
        rw [heq]
        exact hU
      · rw [withdrawCredits_eq_of_checks s input user hu (not_lt.mp hlt)]
        intro u hmem
        exact nonNeg_setUserBalance _ _ _ hU
          (sub_nonneg.mpr (not_lt.mp hlt)) u hmem

/-- C7 witness: the demo store has non-negative balances and a positive
price, and the demo purchase keeps every balance non-negative. -/
theorem balances_stay_nonneg_witness :
    nonNegBalances (purchaseAgent demoDB { buyer_id := 2, agent_id := 1 }).2 :=
  (balances_stay_nonneg demoDB (by unfold nonNegBalances; decide) (by decide)).1
    { buyer_id := 2, agent_id := 1 }

/-- Store left behind when the withdrawal-transaction insert fails after
the balance update already ran: the debit persisted, no withdrawal row
exists. -/
def demoPartialDB : DB :=
  { users := [demoCreator, { id := 2, credit_balance := 3000, total_earned := 0 }],
    agents := [demoAgent], purchases := [], transactions := [],
    nextPurchaseId := 1, nextTransactionId := 1 }

/-- C2: withdrawCredits issues its balance update and its transaction
insert as two separate non-transactional calls; when the insert fails
after the update succeeded (user 2, balance 50.00, withdrawing 20.00),
the debit to 30.00 persists with no withdrawal CreditTransaction recorded
and the caller receives the null result: the effect pair is not
all-or-nothing, contradicting the source's own comment announcing a
transaction. -/
theorem withdraw_not_atomic :
    withdrawCreditsF demoDB { user_id := 2, amount := 2000 } false true
      = (Except.ok none, demoPartialDB) ∧
    selectUser demoDB 2 =
      some { id := 2, credit_balance := 5000, total_earned := 0 } ∧
    selectUser demoPartialDB 2 =
      some { id := 2, credit_balance := 3000, total_earned := 0 } ∧
    demoPartialDB.transactions = [] :=
  ⟨rfl, rfl, rfl, rfl⟩

/-- C3 counterexample: a storage fault at the balance update of
withdrawCredits is caught and surfaced as the ordinary null result (the
value reserved for business-rule non-events), not propagated as an
error. -/
theorem withdraw_swallows_error :
    withdrawCreditsF demoDB { user_id := 2, amount := 2000 } true false
      = (Except.ok none, demoDB) ∧
    (withdrawCreditsF demoDB { user_id := 2, amount := 2000 } true false).1
      ≠ Except.error () :=
  ⟨rfl, fun h => Except.noConfusion h⟩

/-- C3 amended: purchaseAgent and buyCredits propagate a storage fault at
any of their writes as a thrown error with the store unchanged, but
withdrawCredits never propagates any fault: its catch block converts
every error into the null result. -/
theorem fault_propagation (s : DB) :
    (∀ (input : PurchaseAgentInput) (agent : AIAgent) (buyer creator : User)
      (k : Fin 6),
      selectActiveAgent s input.agent_id = some agent →
      selectUser s input.buyer_id = some buyer →
      agent.creator_id ≠ input.buyer_id →
      selectPurchase s input.buyer_id input.agent_id = none →
      agent.price ≤ buyer.credit_balance →
      selectUser s agent.creator_id = some creator →
      purchaseAgentF s input (some k) = (Except.error (), s)) ∧
    (∀ (input : BuyCreditsInput) (user : User) (k : Fin 2),
      selectUser s input.user_id = some user →
      processPayment input.amount input.payment_method = true →
      buyCreditsF s input (some k) = (Except.error (), s)) ∧
    (∀ (input : WithdrawCreditsInput) (uf insf : Bool),
      (withdrawCreditsF s input uf insf).1 ≠ Except.error ()) := by
  refine ⟨?_, ?_, ?_⟩
  · intro input agent buyer creator k hA hB hself hdup hbal hC
    simp only [purchaseAgentF, hA, hB, hC]
    rw [if_neg (by simp [hself]), if_neg (by simp [hdup]),
      if_neg (not_lt.mpr hbal)]
  · intro input user k hu hpay
    simp only [buyCreditsF, hu, hpay]
    simp
  · intro input uf insf
    unfold withdrawCreditsF
    split
    · simp
    · split
      · simp
      · split
        · simp
        · split
          · simp
          · simp

/-- C3 amended witness: a fault at the first write of the demo purchase is
propagated as an error with the store unchanged. -/
theorem fault_propagation_witness :
    purchaseAgentF demoDB { buyer_id := 2, agent_id := 1 } (some 0)
      = (Except.error (), demoDB) :=
  (fault_propagation demoDB).1 { buyer_id := 2, agent_id := 1 } demoAgent demoBuyer
    demoCreator 0 (by decide) (by decide) (by decide) (by decide) (by decide)
    (by decide)

end Marketplace
